import Mathlib

/-
Verification development for the scraper pipeline in src/function_app.py.

The file shallowly embeds the parts of the program that the specification
talks about: the generic retry decorator retry_on_exception, the class
AzureScraper (its storage setup, value extraction, blob persistence and
cleanup methods) and the timer entry point scraper_trigger.  External
effects (the browser, the clock, the blob service) are modelled by an
explicit environment record Env holding the outcome each external call
would produce, and each modelled function additionally returns the list of
externally visible events it performs.
-/

set_option autoImplicit false

namespace FnApp

/-! ### Time stamps

Models the datetime values used by the program: datetime.now() is read from
the environment (once at capture, once at persist), isoformat matches the
Python datetime.isoformat rendering (microseconds printed only when
nonzero) and blobName matches the f-string
multiplier_data_ + strftime %Y%m%d_%H%M%S + .csv of save_to_blob. -/

structure DateTime where
  year : Nat
  month : Nat
  day : Nat
  hour : Nat
  minute : Nat
  second : Nat
  micro : Nat
deriving DecidableEq

/-- Left-pad the decimal rendering of n with zeros to width w, as the
Python zero-padded format codes %Y %m %d %H %M %S and %f do. -/
def padZ (w n : Nat) : String :=
  let s := toString n
  ⟨List.replicate (w - s.length) '0'⟩ ++ s

/-- Model of datetime.isoformat: microseconds are printed only when nonzero. -/
def DateTime.isoformat (t : DateTime) : String :=
  padZ 4 t.year ++ "-" ++ padZ 2 t.month ++ "-" ++ padZ 2 t.day ++ "T" ++
  padZ 2 t.hour ++ ":" ++ padZ 2 t.minute ++ ":" ++ padZ 2 t.second ++
  (if t.micro = 0 then "" else "." ++ padZ 6 t.micro)

/-- Model of the blob object name built in save_to_blob from
datetime.now().strftime with format %Y%m%d_%H%M%S. -/
def blobName (t : DateTime) : String :=
  "multiplier_data_" ++ padZ 4 t.year ++ padZ 2 t.month ++ padZ 2 t.day ++ "_" ++
  padZ 2 t.hour ++ padZ 2 t.minute ++ padZ 2 t.second ++ ".csv"

/-! ### Python string and number primitives used by get_current_values -/

/-- Characters removed by the Python str.strip() with no arguments. -/
def pyIsSpace (c : Char) : Bool :=
  c = ' ' || c = '\t' || c = '\n' || c = '\r' || c = '\x0b' || c = '\x0c'

/-- Model of str.strip(): drop whitespace from both ends. -/
def pyStrip (s : String) : String :=
  ⟨((s.data.dropWhile pyIsSpace).reverse.dropWhile pyIsSpace).reverse⟩

/-- Model of the call text.replace(given a one character pattern, empty
replacement): every occurrence of the character is removed, not only a
trailing one. -/
def removeAll (c : Char) (s : String) : String :=
  ⟨s.data.filter (fun d => d ≠ c)⟩

/-- Numeric value of a list of decimal digit characters. -/
def digitsVal (cs : List Char) : Nat :=
  cs.foldl (fun a c => a * 10 + (c.toNat - 48)) 0

/-- Drop trailing zero digits of a fraction, mirroring that the Python
float value does not remember trailing zeros of its literal and its repr
(used by pandas when writing the CSV) prints the shortest form. -/
def normFrac (l : List Nat) : List Nat :=
  (l.reverse.dropWhile (fun d => d = 0)).reverse

/-- Decimal number: the value a Python float holds for a plain decimal
literal, kept in exact decimal form (sign, integer part, fraction digits
without trailing zeros). -/
structure DecNum where
  neg : Bool
  ip : Nat
  frac : List Nat
deriving DecidableEq

/-- Rational value of a DecNum. -/
def DecNum.toRat (d : DecNum) : ℚ :=
  let f : ℚ := d.frac.foldr (fun dig acc => ((dig : ℚ) + acc) / 10) 0
  let m : ℚ := (d.ip : ℚ) + f
  if d.neg then -m else m

/-- Rendering of a DecNum as Python repr renders the corresponding float
(always with a decimal point, as in 7.0), which is what pandas to_csv
writes for a float cell. -/
def DecNum.render (d : DecNum) : String :=
  (if d.neg then "-" else "") ++ toString d.ip ++ "." ++
  (if d.frac.isEmpty then "0" else ⟨d.frac.map (fun n => Char.ofNat (n + 48))⟩)

/-- Model of the Python float() conversion on plain decimal numerals
(optional sign, digits, optional fraction; float() itself also tolerates
surrounding whitespace).  Inputs outside this grammar raise ValueError in
Python and yield none here; exponent, infinity and nan forms are outside
the domain this program's page texts live in. -/
def pyFloat (s : String) : Option DecNum :=
  let cs := (pyStrip s).data
  let (sgn, rest) :=
    match cs with
    | '-' :: r => (true, r)
    | '+' :: r => (false, r)
    | r => (false, r)
  let ipDigits := rest.takeWhile Char.isDigit
  let tail := rest.dropWhile Char.isDigit
  match tail with
  | [] =>
    if ipDigits.isEmpty then none
    else some ⟨sgn, digitsVal ipDigits, []⟩
  | '.' :: fs =>
    if fs.all Char.isDigit && !(ipDigits.isEmpty && fs.isEmpty) then
      some ⟨sgn, digitsVal ipDigits, normFrac (fs.map (fun c => c.toNat - 48))⟩
    else none
  | _ => none

/-- Model of the Python int() conversion (optional sign, decimal digits;
int() itself also tolerates surrounding whitespace). -/
def pyInt (s : String) : Option Int :=
  let cs := (pyStrip s).data
  let (sgn, rest) :=
    match cs with
    | '-' :: r => (true, r)
    | '+' :: r => (false, r)
    | r => (false, r)
  if !rest.isEmpty && rest.all Char.isDigit then
    some (if sgn then -(digitsVal rest : Int) else (digitsVal rest : Int))
  else none

/-- Multiplier parsing exactly as written in get_current_values:
float(text.replace(x by nothing).strip()). -/
def parseMultiplier (t : String) : Option DecNum :=
  pyFloat (pyStrip (removeAll 'x' t))

/-- Multiplier parsing as the specification sentence reads literally: trim
surrounding whitespace and strip a TRAILING x marker (only), then convert.
Declared for comparison against parseMultiplier, which is taken from the
source; it is not part of the program model. -/
def parseMultiplier_claim (t : String) : Option DecNum :=
  let s := pyStrip t
  let s2 : String := if s.data.getLast? = some 'x' then ⟨s.data.dropLast⟩ else s
  pyFloat s2

/-! ### The retry decorator

retry_on_exception(retries, delay) runs the wrapped call with attempt
indices i = 0, 1, ..., retries-1; an attempt that raises is retried after
sleeping delay seconds unless it was the last one, whose exception is
re-raised.  If the loop ends without returning (possible only when
retries = 0 so the range is empty) the wrapper returns the Python None,
modelled by the outer Option.  The model takes the outcome of the i-th
call as a function of i and additionally returns how many calls were made
and the list of sleep durations performed, in order.  retryLoop carries
the attempt index i together with the number of remaining attempts
(retries - i); remaining = 1 is exactly the Python test i == retries - 1. -/

def retryLoop {E A : Type} (f : Nat → Except E A) (delay : Nat) :
    Nat → Nat → Option (Except E A) × Nat × List Nat
  | _, 0 => (none, 0, [])
  | i, Nat.succ rem =>
    match f i with
    | Except.ok a => (some (Except.ok a), 1, [])
    | Except.error e =>
      if rem = 0 then (some (Except.error e), 1, [])
      else
        let r := retryLoop f delay (i + 1) rem
        (r.1, r.2.1 + 1, delay :: r.2.2)

/-- The wrapper produced by the decorator: result, number of calls made,
sleeps performed. -/
def retry_on_exception {E A : Type} (retries delay : Nat) (f : Nat → Except E A) :
    Option (Except E A) × Nat × List Nat :=
  retryLoop f delay 0 retries

/-! ### The pipeline

Env records what each external call would produce during one invocation:
the clock readings, the browser texts, and the outcomes of the storage and
driver calls.  Each modelled function returns its value together with the
list of externally visible events it performs, so the theorems can speak
about which calls were made. -/

deriving instance DecidableEq for Except

/-- Python exception values that can travel through the pipeline. -/
inductive PyErr
  | valueError (msg : String)
  | timeoutError (which : String)
  | storageError (msg : String)
  | driverError (msg : String)
  | typeError (msg : String)
deriving DecidableEq

/-- Externally visible calls the pipeline can make. -/
inductive Event
  | getContainerProps
  | createContainer
  | driverSetupAttempt
  | uploadBlob (name : String) (content : String)
  | driverQuit
deriving DecidableEq

/-- Logged outcome of one invocation of scraper_trigger: the function
itself always returns normally (its body is one big try, except, finally). -/
inductive Outcome
  | saved
  | noValues
  | errorCaught (err : PyErr)
deriving DecidableEq

/-- One invocation's environment: what the clock, the page and the Azure
services would answer. -/
structure Env where
  currentUrl : String
  navResult : Except PyErr Unit
  multiplierText : Except PyErr String
  playingText : Except PyErr String
  onlineText : Except PyErr String
  captureTime : DateTime
  persistTime : DateTime
  azureWebJobsStorage : Option String
  blobClientInit : Except PyErr Unit
  containerProps : Except PyErr Unit
  containerCreate : Except PyErr Unit
  uploadResult : Except PyErr Unit
  driverSetup : Except PyErr Unit
  quitResult : Except PyErr Unit

/-- The page URL held in self.url. -/
def targetUrl : String := "https://play.pakakumi.com/"

/-- Model of AzureScraper.setup_blob_storage: require the
AzureWebJobsStorage connection string (the Python test `if not connect_str`
rejects both an unset variable and an empty string), build the client,
then probe get_container_properties and call create_container only when
the probe raised.  Any error is re-raised after logging. -/
def setup_blob_storage (e : Env) : Except PyErr Unit × List Event :=
  match e.azureWebJobsStorage with
  | none => (Except.error (PyErr.valueError "No storage connection string found!"), [])
  | some s =>
    if s = "" then
      (Except.error (PyErr.valueError "No storage connection string found!"), [])
    else
      match e.blobClientInit with
      | Except.error err => (Except.error err, [])
      | Except.ok () =>
        match e.containerProps with
        | Except.ok () => (Except.ok (), [Event.getContainerProps])
        | Except.error _ =>
          match e.containerCreate with
          | Except.ok () => (Except.ok (), [Event.getContainerProps, Event.createContainer])
          | Except.error err =>
            (Except.error err, [Event.getContainerProps, Event.createContainer])

/-- Model of AzureScraper.__init__: setup_logging (pure logging, no
events), then setup_blob_storage, then setup_driver.  A failure in either
setup is re-raised and the later steps do not run. -/
def azureScraper_init (e : Env) : Except PyErr Unit × List Event :=
  match setup_blob_storage e with
  | (Except.error err, tr) => (Except.error err, tr)
  | (Except.ok (), tr) =>
    match e.driverSetup with
    | Except.ok () => (Except.ok (), tr ++ [Event.driverSetupAttempt])
    | Except.error err => (Except.error err, tr ++ [Event.driverSetupAttempt])

/-- The body of the try block of AzureScraper.get_current_values, in
source order: navigate when the current URL differs from self.url (the
post-navigation sleep has no modelled effect), locate and read the
multiplier text and parse it with float after replace and strip, then the
Playing count, then the Online count (each stripped and parsed with int),
then stamp with datetime.now().  The returned tuple is
(multiplier, online, playing, timestamp). -/
def get_current_values_body (e : Env) :
    Except PyErr (DecNum × Int × Int × DateTime) :=
  match (if e.currentUrl = targetUrl then Except.ok () else e.navResult) with
  | Except.error err => Except.error err
  | Except.ok () =>
    match e.multiplierText with
    | Except.error err => Except.error err
    | Except.ok mt =>
      match parseMultiplier mt with
      | none => Except.error (PyErr.valueError mt)
      | some m =>
        match e.playingText with
        | Except.error err => Except.error err
        | Except.ok pt =>
          match pyInt (pyStrip pt) with
          | none => Except.error (PyErr.valueError pt)
          | some p =>
            match e.onlineText with
            | Except.error err => Except.error err
            | Except.ok ot =>
              match pyInt (pyStrip ot) with
              | none => Except.error (PyErr.valueError ot)
              | some o => Except.ok (m, o, p, e.captureTime)

/-- AzureScraper.get_current_values as written: the whole body sits in a
try whose except clause catches every exception, logs it and returns the
tuple (None, None, None, None).  The function therefore never raises. -/
def get_current_values_inner (e : Env) :
    Option DecNum × Option Int × Option Int × Option DateTime :=
  match get_current_values_body e with
  | Except.ok (m, o, p, t) => (some m, some o, some p, some t)
  | Except.error _ => (none, none, none, none)

/-- The decorated method the caller sees:
retry_on_exception(retries = 3, delay = 2) wrapped around
get_current_values.  Because the inner function never raises, every call
of the wrapper is one ordinary return. -/
def get_current_values (e : Env) :
    Option (Except PyErr (Option DecNum × Option Int × Option Int × Option DateTime)) ×
      Nat × List Nat :=
  retry_on_exception 3 2 (fun _ => Except.ok (get_current_values_inner e))

/-- The dict built in scraper_trigger before persisting; the field order
is the dict insertion order, which pandas keeps as the CSV column order. -/
structure DataRec where
  timestamp : String
  multiplier : DecNum
  online : Int
  playing : Int
deriving DecidableEq

/-- Model of pd.DataFrame([data]).to_csv(index=False) for the one-row dict
of scraper_trigger: a header row with the keys in insertion order, then
one data row, each line ending in a newline. -/
def toCsv (d : DataRec) : String :=
  "timestamp,multiplier,online,playing\n" ++
  d.timestamp ++ "," ++ d.multiplier.render ++ "," ++
  toString d.online ++ "," ++ toString d.playing ++ "\n"

/-- Model of AzureScraper.save_to_blob: serialize the record, name the
blob from datetime.now() read at persist time, upload; an upload error is
logged and re-raised. -/
def save_to_blob (e : Env) (d : DataRec) : Except PyErr Unit × List Event :=
  let name := blobName e.persistTime
  let content := toCsv d
  match e.uploadResult with
  | Except.ok () => (Except.ok (), [Event.uploadBlob name content])
  | Except.error err => (Except.error err, [Event.uploadBlob name content])

/-- Model of AzureScraper.cleanup: driver.quit() inside a try whose except
clause only logs, so cleanup never raises. -/
def cleanup (e : Env) : Except PyErr Unit × List Event :=
  match e.quitResult with
  | Except.ok () => (Except.ok (), [Event.driverQuit])
  | Except.error _ => (Except.ok (), [Event.driverQuit])

/-- Model of the timer entry point scraper_trigger: construct AzureScraper
(storage setup then driver setup), call the decorated get_current_values,
persist only when all four returned values are non-None, catch any raised
exception, and in the finally block run cleanup exactly when the scraper
was constructed.  The function always returns normally; the Outcome is
what its logs report. -/
def scraper_trigger (e : Env) : Outcome × List Event :=
  match azureScraper_init e with
  | (Except.error err, tr) => (Outcome.errorCaught err, tr)
  | (Except.ok (), tr) =>
    let fin := (cleanup e).2
    match (get_current_values e).1 with
    | some (Except.ok (some m, some o, some p, some ts)) =>
      let d : DataRec := ⟨DateTime.isoformat ts, m, o, p⟩
      match save_to_blob e d with
      | (Except.ok (), tr2) => (Outcome.saved, tr ++ tr2 ++ fin)
      | (Except.error err, tr2) => (Outcome.errorCaught err, tr ++ tr2 ++ fin)
    | some (Except.ok _) => (Outcome.noValues, tr ++ fin)
    | some (Except.error err) => (Outcome.errorCaught err, tr ++ fin)
    | none => (Outcome.errorCaught (PyErr.typeError "cannot unpack None"), tr ++ fin)

/-- True exactly on blob upload events. -/
def isUploadEvent : Event → Bool
  | Event.uploadBlob _ _ => true
  | _ => false

/-! ### Helper lemmas -/

theorem wrapped_fst (e : Env) :
    (get_current_values e).1 = some (Except.ok (get_current_values_inner e)) := rfl

theorem cleanup_eq (e : Env) : cleanup e = (Except.ok (), [Event.driverQuit]) := by
  cases hq : e.quitResult <;> simp [cleanup, hq]

theorem setup_events (e : Env) :
    ∀ ev ∈ (setup_blob_storage e).2,
      ev = Event.getContainerProps ∨ ev = Event.createContainer := by
  intro ev hev
  unfold setup_blob_storage at hev
  split at hev
  · simp at hev
  · split at hev
    · simp at hev
    · split at hev
      · simp at hev
      · split at hev
        · simp at hev; simp [hev]
        · split at hev
          · simp at hev; tauto
          · simp at hev; tauto

theorem init_events (e : Env) :
    ∀ ev ∈ (azureScraper_init e).2,
      ev = Event.getContainerProps ∨ ev = Event.createContainer ∨
        ev = Event.driverSetupAttempt := by
  intro ev hev
  unfold azureScraper_init at hev
  rcases hs : setup_blob_storage e with ⟨rs, trs⟩
  rw [hs] at hev
  have hsub : ev ∈ trs → ev = Event.getContainerProps ∨ ev = Event.createContainer := by
    intro h; have := setup_events e ev; rw [hs] at this; exact this h
  cases rs with
  | error err => simp at hev; tauto
  | ok u =>
    cases u
    cases hd : e.driverSetup with
    | ok u2 =>
      cases u2; rw [hd] at hev; simp at hev
      rcases hev with h | h
      · tauto
      · tauto
    | error err2 =>
      rw [hd] at hev; simp at hev
      rcases hev with h | h
      · tauto
      · tauto

theorem init_no_upload (e : Env) :
    (azureScraper_init e).2.filter isUploadEvent = [] := by
  rw [List.filter_eq_nil_iff]
  intro ev hev
  rcases init_events e ev hev with h | h | h <;> simp [isUploadEvent, h]

theorem trigger_init_error (e : Env) (err : PyErr) (tr : List Event)
    (h : azureScraper_init e = (Except.error err, tr)) :
    scraper_trigger e = (Outcome.errorCaught err, tr) := by
  unfold scraper_trigger
  rw [h]

theorem trigger_noValues (e : Env) (tr : List Event) (err : PyErr)
    (hinit : azureScraper_init e = (Except.ok (), tr))
    (hbody : get_current_values_body e = Except.error err) :
    scraper_trigger e = (Outcome.noValues, tr ++ [Event.driverQuit]) := by
  unfold scraper_trigger
  rw [hinit, wrapped_fst, cleanup_eq]
  simp [get_current_values_inner, hbody]

theorem trigger_saved (e : Env) (tr : List Event) (m : DecNum) (o p : Int) (ts : DateTime)
    (hinit : azureScraper_init e = (Except.ok (), tr))
    (hbody : get_current_values_body e = Except.ok (m, o, p, ts))
    (hup : e.uploadResult = Except.ok ()) :
    scraper_trigger e =
      (Outcome.saved,
        tr ++ [Event.uploadBlob (blobName e.persistTime)
                 (toCsv ⟨DateTime.isoformat ts, m, o, p⟩)] ++ [Event.driverQuit]) := by
  unfold scraper_trigger
  rw [hinit, wrapped_fst, cleanup_eq]
  simp [get_current_values_inner, hbody, save_to_blob, hup]

theorem trigger_save_failed (e : Env) (tr : List Event) (m : DecNum) (o p : Int)
    (ts : DateTime) (err : PyErr)
    (hinit : azureScraper_init e = (Except.ok (), tr))
    (hbody : get_current_values_body e = Except.ok (m, o, p, ts))
    (hup : e.uploadResult = Except.error err) :
    scraper_trigger e =
      (Outcome.errorCaught err,
        tr ++ [Event.uploadBlob (blobName e.persistTime)
                 (toCsv ⟨DateTime.isoformat ts, m, o, p⟩)] ++ [Event.driverQuit]) := by
  unfold scraper_trigger
  rw [hinit, wrapped_fst, cleanup_eq]
  simp [get_current_values_inner, hbody, save_to_blob, hup]

theorem trigger_congr (ea eb : Env)
    (hinit : azureScraper_init ea = azureScraper_init eb)
    (hbody : get_current_values_body ea = get_current_values_body eb)
    (hup : ea.uploadResult = eb.uploadResult)
    (hpt : ea.persistTime = eb.persistTime) :
    scraper_trigger ea = scraper_trigger eb := by
  rcases hi : azureScraper_init eb with ⟨ri, tr⟩
  have hia : azureScraper_init ea = (ri, tr) := hinit.trans hi
  cases ri with
  | error err => rw [trigger_init_error ea err tr hia, trigger_init_error eb err tr hi]
  | ok u =>
    cases u
    cases hb : get_current_values_body eb with
    | error err =>
      rw [trigger_noValues ea tr err hia (hbody.trans hb),
        trigger_noValues eb tr err hi hb]
    | ok v =>
      obtain ⟨m, o, p, ts⟩ := v
      cases hu : eb.uploadResult with
      | ok uu =>
        cases uu
        rw [trigger_saved ea tr m o p ts hia (hbody.trans hb) (hup.trans hu),
          trigger_saved eb tr m o p ts hi hb hu, hpt]
      | error err =>
        rw [trigger_save_failed ea tr m o p ts err hia (hbody.trans hb) (hup.trans hu),
          trigger_save_failed eb tr m o p ts err hi hb hu, hpt]

theorem body_ok_inversion (e : Env) (m : DecNum) (o p : Int) (ts : DateTime)
    (h : get_current_values_body e = Except.ok (m, o, p, ts)) :
    (∃ mt, e.multiplierText = Except.ok mt ∧ parseMultiplier mt = some m) ∧
    (∃ pt, e.playingText = Except.ok pt ∧ pyInt (pyStrip pt) = some p) ∧
    (∃ ot, e.onlineText = Except.ok ot ∧ pyInt (pyStrip ot) = some o) ∧
    ts = e.captureTime := by
  unfold get_current_values_body at h
  split at h
  · simp at h
  · split at h
    · simp at h
    · rename_i mt hmt
      split at h
      · simp at h
      · rename_i mv hm
        split at h
        · simp at h
        · rename_i pt hpt
          split at h
          · simp at h
          · rename_i pv hp
            split at h
            · simp at h
            · rename_i ot hot
              split at h
              · simp at h
              · rename_i ov ho
                simp only [Except.ok.injEq, Prod.mk.injEq] at h
                obtain ⟨hm2, ho2, hp2, ht2⟩ := h
                subst hm2; subst ho2; subst hp2
                exact ⟨⟨mt, hmt, hm⟩, ⟨pt, hpt, hp⟩, ⟨ot, hot, ho⟩, ht2.symm⟩

/-! ### Concrete environments used to evaluate the model -/

/-- An invocation in which every external call succeeds and the page shows
multiplier 3.42x, Playing 18, Online 203. -/
def envBase : Env :=
  { currentUrl := targetUrl
    navResult := Except.ok ()
    multiplierText := Except.ok "3.42x"
    playingText := Except.ok "18"
    onlineText := Except.ok "203"
    captureTime := ⟨2026, 1, 2, 3, 4, 4, 250000⟩
    persistTime := ⟨2026, 1, 2, 3, 4, 5, 0⟩
    azureWebJobsStorage := some "conn"
    blobClientInit := Except.ok ()
    containerProps := Except.ok ()
    containerCreate := Except.ok ()
    uploadResult := Except.ok ()
    driverSetup := Except.ok ()
    quitResult := Except.ok () }

/-- The multiplier locate times out on every attempt. -/
def envFail1 : Env :=
  { envBase with multiplierText := Except.error (PyErr.timeoutError "a.css-19toqs6") }

/-- The multiplier text is present but unparsable. -/
def envBad4 : Env := { envBase with multiplierText := Except.ok "abc" }

/-- A fully successful run with distinct capture and persist seconds. -/
def envOk5 : Env :=
  { envBase with
      captureTime := ⟨2026, 1, 1, 0, 0, 0, 123456⟩
      persistTime := ⟨2026, 1, 1, 0, 0, 1, 0⟩ }

/-- The Playing locate times out; everything else succeeds. -/
def envFail6 : Env :=
  { envBase with playingText := Except.error (PyErr.timeoutError "Playing") }

/-- The storage connection string variable is unset. -/
def envNoCred : Env := { envBase with azureWebJobsStorage := none }

/-- The Online locate times out; everything else succeeds. -/
def envFail9 : Env :=
  { envBase with onlineText := Except.error (PyErr.timeoutError "Online") }

/-- A successful run whose wall clock crosses a second boundary between
capture (11:59:59.900000) and persist (12:00:00). -/
def env10 : Env :=
  { envBase with
      multiplierText := Except.ok "2x"
      playingText := Except.ok "10"
      onlineText := Except.ok "50"
      captureTime := ⟨2026, 10, 12, 11, 59, 59, 900000⟩
      persistTime := ⟨2026, 10, 12, 12, 0, 0, 0⟩ }

/-- A wrapped call that raises on attempts 0 and 1 and succeeds on attempt 2. -/
def fFailTwice : Nat → Except Nat Nat :=
  fun i => if i < 2 then Except.error i else Except.ok 42

/-- A wrapped call that raises on every attempt. -/
def gAlwaysFail : Nat → Except Nat Nat := fun i => Except.error i

/-! ### The claims -/

/-- C1: the claim says a failed extraction attempt is re-tried up to 3
times with 2 second delays and that exhaustion surfaces the last error to
the caller.  The code does not do this: get_current_values catches every
exception inside its own try block and returns (None, None, None, None),
so the retry_on_exception(retries = 3, delay = 2) wrapper around it never
observes a failure.  At an environment whose multiplier locate times out,
the extraction body raises, yet the decorated call makes exactly one
attempt, sleeps never, and returns normally with the all-None tuple —
no error reaches the caller. -/
theorem c1_retry_never_fires :
    get_current_values_body envFail1 =
      Except.error (PyErr.timeoutError "a.css-19toqs6") ∧
    get_current_values envFail1 =
      (some (Except.ok (none, none, none, none)), 1, []) := by
  exact ⟨by decide, rfl⟩

/-- C2: an Observation is passed to the persister (a blob upload call is
made) only when the extraction body of the same invocation succeeded with
all four values; whenever any value is missing no store call occurs. -/
theorem c2_upload_requires_complete_extraction (e : Env) (n c : String)
    (h : Event.uploadBlob n c ∈ (scraper_trigger e).2) :
    ∃ v, get_current_values_body e = Except.ok v := by
  rcases hi : azureScraper_init e with ⟨ri, tr⟩
  have hinitev : ∀ ev ∈ tr,
      ev = Event.getContainerProps ∨ ev = Event.createContainer ∨
        ev = Event.driverSetupAttempt := by
    intro ev hev
    have h2 := init_events e ev
    rw [hi] at h2
    exact h2 hev
  have hnotr : Event.uploadBlob n c ∉ tr := by
    intro hmem
    rcases hinitev _ hmem with h1 | h1 | h1 <;> simp at h1
  cases ri with
  | error err =>
    rw [trigger_init_error e err tr hi] at h
    exact absurd h hnotr
  | ok u =>
    cases u
    cases hb : get_current_values_body e with
    | ok v => exact ⟨v, rfl⟩
    | error err =>
      rw [trigger_noValues e tr err hi hb] at h
      simp at h
      exact absurd h hnotr

/-- Witness for C2: in the all-success environment the upload event occurs,
and the theorem yields a successful extraction body. -/
theorem c2_upload_requires_complete_extraction_witness :
    Event.uploadBlob "multiplier_data_20260102_030405.csv"
        "timestamp,multiplier,online,playing\n2026-01-02T03:04:04.250000,3.42,203,18\n" ∈
      (scraper_trigger envBase).2 ∧
    ∃ v, get_current_values_body envBase = Except.ok v :=
  ⟨by decide,
    c2_upload_requires_complete_extraction envBase
      "multiplier_data_20260102_030405.csv"
      "timestamp,multiplier,online,playing\n2026-01-02T03:04:04.250000,3.42,203,18\n"
      (by decide)⟩

/-- C3: with retries = 3, a wrapped call failing twice then succeeding is
called exactly 3 times and the third result is returned; a wrapped call
that always fails is called exactly 3 times and the third exception is the
one propagated.  (The two inter-attempt sleeps of length delay are also
recorded.) -/
theorem c3_retry_semantics {E A : Type} (d : Nat) (f g : Nat → Except E A)
    (e0 e1 : E) (a : A) (d0 d1 d2 : E)
    (hf0 : f 0 = Except.error e0) (hf1 : f 1 = Except.error e1)
    (hf2 : f 2 = Except.ok a)
    (hg0 : g 0 = Except.error d0) (hg1 : g 1 = Except.error d1)
    (hg2 : g 2 = Except.error d2) :
    retry_on_exception 3 d f = (some (Except.ok a), 3, [d, d]) ∧
    retry_on_exception 3 d g = (some (Except.error d2), 3, [d, d]) := by
  constructor
  · simp [retry_on_exception, retryLoop, hf0, hf1, hf2]
  · simp [retry_on_exception, retryLoop, hg0, hg1, hg2]

/-- Witness for C3 at concrete wrapped calls. -/
theorem c3_retry_semantics_witness :
    fFailTwice 0 = Except.error 0 ∧ fFailTwice 1 = Except.error 1 ∧
    fFailTwice 2 = Except.ok 42 ∧
    gAlwaysFail 0 = Except.error 0 ∧ gAlwaysFail 1 = Except.error 1 ∧
    gAlwaysFail 2 = Except.error 2 ∧
    retry_on_exception 3 2 fFailTwice = (some (Except.ok 42), 3, [2, 2]) ∧
    retry_on_exception 3 2 gAlwaysFail = (some (Except.error 2), 3, [2, 2]) := by
  have h := c3_retry_semantics 2 fFailTwice gAlwaysFail 0 1 42 0 1 2
    rfl rfl rfl rfl rfl rfl
  exact ⟨rfl, rfl, rfl, rfl, rfl, rfl, h.1, h.2⟩

/-- C4 counterexample: the claim reads that for every multiplier text the
parse strips the TRAILING x marker and trims whitespace before conversion.
The source instead removes every x character: on the input 1x5 the code
parses 15.0, while the trailing-marker reading fails to parse. -/
theorem c4_trailing_only_counterexample :
    (parseMultiplier "1x5").map DecNum.toRat = some (15 : ℚ) ∧
    parseMultiplier_claim "1x5" = none := by
  have h15 : parseMultiplier "1x5" = some ⟨false, 15, []⟩ := by decide
  constructor
  · rw [h15]
    simp [DecNum.toRat]
  · decide

/-- C4 (amended): parsing removes every x character and trims surrounding
whitespace before floating-point conversion (which on well-formed inputs
with one trailing marker agrees with stripping the trailing x), so
parsing 12.5x yields 12.5 and parsing a padded 7x yields 7.0; count texts
are trimmed and parsed as integers; and a parse failure of the multiplier
or of a count aborts the extraction attempt, which then yields no values. -/
theorem c4_parsing_amended :
    (∀ s, parseMultiplier s = pyFloat (pyStrip (removeAll 'x' s))) ∧
    (parseMultiplier "12.5x").map DecNum.toRat = some ((25 : ℚ) / 2) ∧
    (parseMultiplier "  7x ").map DecNum.toRat = some (7 : ℚ) ∧
    (parseMultiplier "1x5").map DecNum.toRat = some (15 : ℚ) ∧
    pyInt (pyStrip " 18 ") = some 18 ∧
    (∀ e mt, e.multiplierText = Except.ok mt → parseMultiplier mt = none →
      get_current_values_inner e = (none, none, none, none)) ∧
    (∀ e pt, e.playingText = Except.ok pt → pyInt (pyStrip pt) = none →
      get_current_values_inner e = (none, none, none, none)) := by
  have h125 : parseMultiplier "12.5x" = some ⟨false, 12, [5]⟩ := by decide
  have h7 : parseMultiplier "  7x " = some ⟨false, 7, []⟩ := by decide
  have h15 : parseMultiplier "1x5" = some ⟨false, 15, []⟩ := by decide
  refine ⟨fun s => rfl, ?_, ?_, ?_, by decide, ?_, ?_⟩
  · rw [h125]
    simp [DecNum.toRat]
    norm_num
  · rw [h7]
    simp [DecNum.toRat]
  · rw [h15]
    simp [DecNum.toRat]
  · intro e mt hmt hparse
    cases hb : get_current_values_body e with
    | error err => simp [get_current_values_inner, hb]
    | ok v =>
      obtain ⟨m, o, p, ts⟩ := v
      rcases body_ok_inversion e m o p ts hb with ⟨⟨mt2, hmt2, hpm⟩, _, _, _⟩
      rw [hmt] at hmt2
      injection hmt2 with he
      subst he
      rw [hparse] at hpm
      cases hpm
  · intro e pt hpt hparse
    cases hb : get_current_values_body e with
    | error err => simp [get_current_values_inner, hb]
    | ok v =>
      obtain ⟨m, o, p, ts⟩ := v
      rcases body_ok_inversion e m o p ts hb with ⟨_, ⟨pt2, hpt2, hpp⟩, _, _⟩
      rw [hpt] at hpt2
      injection hpt2 with he
      subst he
      rw [hparse] at hpp
      cases hpp

/-- Witness for C4 (amended): a present but unparsable multiplier text
makes the attempt yield no values. -/
theorem c4_parsing_amended_witness :
    envBad4.multiplierText = Except.ok "abc" ∧
    parseMultiplier "abc" = none ∧
    get_current_values_inner envBad4 = (none, none, none, none) :=
  ⟨rfl, by decide,
    c4_parsing_amended.2.2.2.2.2.1 envBad4 "abc" rfl (by decide)⟩

/-- C5: every successful persist writes exactly one new object, named by
the second-precision pattern of blobName, whose content is exactly the
header row timestamp,multiplier,online,playing followed by one data row
with the ISO timestamp, the decimal multiplier, and online before
playing. -/
theorem c5_persist_format (e : Env) (m : DecNum) (o p : Int) (ts : DateTime)
    (tr : List Event)
    (hinit : azureScraper_init e = (Except.ok (), tr))
    (hbody : get_current_values_body e = Except.ok (m, o, p, ts))
    (hup : e.uploadResult = Except.ok ()) :
    (scraper_trigger e).2.filter isUploadEvent =
      [Event.uploadBlob (blobName e.persistTime)
        ("timestamp,multiplier,online,playing\n" ++ DateTime.isoformat ts ++ "," ++
          DecNum.render m ++ "," ++ toString o ++ "," ++ toString p ++ "\n")] := by
  rw [trigger_saved e tr m o p ts hinit hbody hup]
  have h1 : tr.filter isUploadEvent = [] := by
    have h := init_no_upload e
    rw [hinit] at h
    exact h
  simp [List.filter_append, h1, isUploadEvent, toCsv]

/-- Witness for C5: the end-to-end scenario with multiplier 3.42x, Playing
18, Online 203 writes one object with the claimed name pattern and the
data row ordering online before playing. -/
theorem c5_persist_format_witness :
    azureScraper_init envOk5 =
      (Except.ok (), [Event.getContainerProps, Event.driverSetupAttempt]) ∧
    get_current_values_body envOk5 =
      Except.ok (⟨false, 3, [4, 2]⟩, 203, 18, ⟨2026, 1, 1, 0, 0, 0, 123456⟩) ∧
    envOk5.uploadResult = Except.ok () ∧
    (scraper_trigger envOk5).2.filter isUploadEvent =
      [Event.uploadBlob "multiplier_data_20260101_000001.csv"
        "timestamp,multiplier,online,playing\n2026-01-01T00:00:00.123456,3.42,203,18\n"] := by
  refine ⟨by decide, by decide, rfl, ?_⟩
  have h := c5_persist_format envOk5 ⟨false, 3, [4, 2]⟩ 203 18
    ⟨2026, 1, 1, 0, 0, 0, 123456⟩ [Event.getContainerProps, Event.driverSetupAttempt]
    (by decide) (by decide) rfl
  rw [h]
  decide

/-- C6: whenever the scraper was constructed (a browser session opened),
the cleanup step runs no matter how extraction or persistence ended;
cleanup itself never raises; and the outcome and trace of the invocation
do not depend on whether driver.quit raised. -/
theorem c6_cleanup_always (e : Env) :
    ((azureScraper_init e).1 = Except.ok () → Event.driverQuit ∈ (scraper_trigger e).2) ∧
    (cleanup e).1 = Except.ok () ∧
    (∀ q, scraper_trigger { e with quitResult := q } =
      scraper_trigger { e with quitResult := Except.ok () }) := by
  refine ⟨?_, ?_, ?_⟩
  · intro h
    rcases hi : azureScraper_init e with ⟨ri, tr⟩
    rw [hi] at h
    simp at h
    subst h
    cases hb : get_current_values_body e with
    | error err => rw [trigger_noValues e tr err hi hb]; simp
    | ok v =>
      obtain ⟨m, o, p, ts⟩ := v
      cases hu : e.uploadResult with
      | ok u => cases u; rw [trigger_saved e tr m o p ts hi hb hu]; simp
      | error err => rw [trigger_save_failed e tr m o p ts err hi hb hu]; simp
  · simp [cleanup_eq]
  · intro q
    exact trigger_congr _ _ rfl rfl rfl rfl

/-- Witness for C6: with a session opened and the extraction failing, the
quit call still appears in the invocation trace. -/
theorem c6_cleanup_always_witness :
    (azureScraper_init envFail6).1 = Except.ok () ∧
    Event.driverQuit ∈ (scraper_trigger envFail6).2 :=
  ⟨by decide, (c6_cleanup_always envFail6).1 (by decide)⟩

/-- C7: when the storage connection credential is absent (unset or empty),
the invocation fails with the configuration ValueError raised inside
setup_blob_storage, the driver setup is never reached, and no browser
session is ever opened (the trace is empty, so no cleanup either). -/
theorem c7_missing_credential (e : Env)
    (h : e.azureWebJobsStorage = none ∨ e.azureWebJobsStorage = some "") :
    azureScraper_init e =
      (Except.error (PyErr.valueError "No storage connection string found!"), []) ∧
    scraper_trigger e =
      (Outcome.errorCaught (PyErr.valueError "No storage connection string found!"), []) ∧
    Event.driverSetupAttempt ∉ (scraper_trigger e).2 := by
  have hs : setup_blob_storage e =
      (Except.error (PyErr.valueError "No storage connection string found!"), []) := by
    rcases h with h | h <;> simp [setup_blob_storage, h]
  have hi : azureScraper_init e =
      (Except.error (PyErr.valueError "No storage connection string found!"), []) := by
    simp [azureScraper_init, hs]
  refine ⟨hi, trigger_init_error e _ _ hi, ?_⟩
  rw [trigger_init_error e _ _ hi]
  simp

/-- Witness for C7 at the environment with the variable unset. -/
theorem c7_missing_credential_witness :
    (envNoCred.azureWebJobsStorage = none ∨ envNoCred.azureWebJobsStorage = some "") ∧
    scraper_trigger envNoCred =
      (Outcome.errorCaught (PyErr.valueError "No storage connection string found!"), []) :=
  ⟨Or.inl rfl, (c7_missing_credential envNoCred (Or.inl rfl)).2.1⟩

/-- C8: when the container already exists (the properties probe succeeds),
storage setup succeeds without ever calling create_container, the whole
invocation never calls create_container, and the store call itself
succeeds — the already-exists condition is success, so a second run of the
store path raises no fatal error. -/
theorem c8_container_exists_idempotent (e : Env) (s : String) (d : DataRec)
    (hs : e.azureWebJobsStorage = some s) (hne : s ≠ "")
    (hclient : e.blobClientInit = Except.ok ())
    (hprops : e.containerProps = Except.ok ())
    (hup : e.uploadResult = Except.ok ()) :
    setup_blob_storage e = (Except.ok (), [Event.getContainerProps]) ∧
    Event.createContainer ∉ (scraper_trigger e).2 ∧
    (save_to_blob e d).1 = Except.ok () := by
  have hsetup : setup_blob_storage e = (Except.ok (), [Event.getContainerProps]) := by
    simp [setup_blob_storage, hs, hne, hclient, hprops]
  refine ⟨hsetup, ?_, by simp [save_to_blob, hup]⟩
  cases hd : e.driverSetup with
  | error err =>
    have hi : azureScraper_init e =
        (Except.error err, [Event.getContainerProps, Event.driverSetupAttempt]) := by
      simp [azureScraper_init, hsetup, hd]
    rw [trigger_init_error e err _ hi]
    simp
  | ok u =>
    cases u
    have hi : azureScraper_init e =
        (Except.ok (), [Event.getContainerProps, Event.driverSetupAttempt]) := by
      simp [azureScraper_init, hsetup, hd]
    cases hb : get_current_values_body e with
    | error err =>
      rw [trigger_noValues e _ err hi hb]
      simp
    | ok v =>
      obtain ⟨m, o, p, ts⟩ := v
      rw [trigger_saved e _ m o p ts hi hb hup]
      simp

/-- Witness for C8 in the all-success environment whose container exists. -/
theorem c8_container_exists_idempotent_witness :
    envBase.azureWebJobsStorage = some "conn" ∧
    envBase.blobClientInit = Except.ok () ∧
    envBase.containerProps = Except.ok () ∧
    envBase.uploadResult = Except.ok () ∧
    setup_blob_storage envBase = (Except.ok (), [Event.getContainerProps]) ∧
    Event.createContainer ∉ (scraper_trigger envBase).2 := by
  have h := c8_container_exists_idempotent envBase "conn"
    ⟨"t", ⟨false, 1, []⟩, 1, 1⟩ rfl (by decide) rfl rfl rfl
  exact ⟨rfl, rfl, rfl, rfl, h.1, h.2.1⟩

/-- C9: get_current_values catches every failure of its body internally:
the decorated call always returns normally after exactly one body call
(never an exception), and whenever the body failed the returned tuple is
(None, None, None, None). -/
theorem c9_extraction_never_raises (e : Env) :
    get_current_values e = (some (Except.ok (get_current_values_inner e)), 1, []) ∧
    (∀ err, get_current_values_body e = Except.error err →
      get_current_values_inner e = (none, none, none, none)) :=
  ⟨rfl, fun err h => by simp [get_current_values_inner, h]⟩

/-- Witness for C9: at the environment whose Online locate times out, the
body raises, the wrapper still returns normally, and the tuple is all
None. -/
theorem c9_extraction_never_raises_witness :
    get_current_values_body envFail9 = Except.error (PyErr.timeoutError "Online") ∧
    get_current_values envFail9 =
      (some (Except.ok (get_current_values_inner envFail9)), 1, []) ∧
    get_current_values_inner envFail9 = (none, none, none, none) :=
  ⟨by decide, (c9_extraction_never_raises envFail9).1,
    (c9_extraction_never_raises envFail9).2 (PyErr.timeoutError "Online") (by decide)⟩

/-- C10: the blob name timestamp is read from the persist-time clock, not
from the observation timestamp: every save names the object from
persistTime, and in the concrete run crossing a second boundary the
object name (12:00:00) differs from the name the captured timestamp
(11:59:59) would give, while the CSV row carries the captured
timestamp. -/
theorem c10_blob_name_from_persist_clock :
    (∀ e d, (save_to_blob e d).2 =
      [Event.uploadBlob (blobName e.persistTime) (toCsv d)]) ∧
    (scraper_trigger env10).2.filter isUploadEvent =
      [Event.uploadBlob "multiplier_data_20261012_120000.csv"
        "timestamp,multiplier,online,playing\n2026-10-12T11:59:59.900000,2.0,50,10\n"] ∧
    blobName env10.captureTime = "multiplier_data_20261012_115959.csv" ∧
    ("multiplier_data_20261012_120000.csv" : String) ≠
      "multiplier_data_20261012_115959.csv" := by
  refine ⟨?_, by decide, by decide, by decide⟩
  intro e d
  cases hu : e.uploadResult <;> simp [save_to_blob, hu]

end FnApp
